import Mathlib

/-!
Verification of the Smart Device Management System's field sanitization and
validation pipeline, route handlers and derived display state, embedded
shallowly from `routes/main.js`.  Request bodies are urlencoded forms, so a
field is a string when present; a sanitized optional field is a string or
null, modelled as `Option String` (`none` = null / absent).
-/

namespace SmartDevice

/-- A character kept by the sanitizing replace `/[^a-zA-Z0-9 ]/g` of every
route: ASCII letters, digits and the space. -/
def allowedChar (c : Char) : Bool := c.isAlpha || c.isDigit || c == ' '

/-- The sanitizing replacement `v.replace(/[^a-zA-Z0-9 ]/g, '')` applied to
each field: every character outside `[A-Za-z0-9 ]` is removed. -/
def stripSpecial (s : String) : String := String.mk (s.data.filter allowedChar)

/-- A word character of the custom-name regex character class `[a-zA-Z0-9_]`. -/
def wordChar (c : Char) : Bool := c.isAlpha || c.isDigit || c == '_'

/-- The language of `[a-zA-Z0-9_]+`, the body of both groups of the
custom-name regex. -/
def WordPlus (l : List Char) : Prop := l ≠ [] ∧ ∀ c ∈ l, wordChar c = true

/-- The language of the starred group `([a-zA-Z0-9_]+)*`. -/
inductive WordPlusStar : List Char → Prop
  | nil : WordPlusStar []
  | cons (u v : List Char) : WordPlus u → WordPlusStar v → WordPlusStar (u ++ v)

/-- Acceptance by the code's custom-name regex
`/^[a-zA-Z0-9_]+([a-zA-Z0-9_]+)*$/` (anchored, so the whole string splits
into a `[a-zA-Z0-9_]+` part followed by a `([a-zA-Z0-9_]+)*` part). -/
def customNameRegexAccepts (s : String) : Prop :=
  ∃ u v, s.data = u ++ v ∧ WordPlus u ∧ WordPlusStar v

/-- Decidable form of the custom-name regex test: one or more word
characters.  Its equivalence with `customNameRegexAccepts` is proved below
(the regex's starred second group adds nothing to the language). -/
def validCustomNameRegexTest (s : String) : Bool :=
  !s.data.isEmpty && s.data.all wordChar

/-- The custom-name rejection condition shared by every route:
`!validCustomNameRegex || custom_name.length < 5 || custom_name.length > 16`. -/
def customNameReject (s : String) : Bool :=
  !(validCustomNameRegexTest s) || decide (s.length < 5) || decide (s.length > 16)

/-- `x != null` for a sanitized string-or-null value. -/
def jsNotNull (v : Option String) : Bool := v.isSome

/-- `typeof x === 'string' || x instanceof String` for a sanitized
string-or-null value: true exactly on the present (string) values. -/
def jsIsStringVal (v : Option String) : Bool := v.isSome

/-- `Number(s)` for a sanitized (alphanumeric+space) string: empty or
all-space coerces to 0, an all-digit string (after trimming spaces) to its
value, anything else to NaN (`none`). -/
def jsToNumber (s : String) : Option Nat :=
  let t := s.trim
  if t.data.isEmpty then some 0
  else if t.data.all Char.isDigit then t.toNat? else none

/-- `isNaN(x)` for a sanitized string-or-null value (`isNaN(null)` is false,
`null` coercing to 0). -/
def jsIsNaN (v : Option String) : Bool :=
  match v with
  | none => false
  | some s => (jsToNumber s).isNone

/-- `parseInt(x)` for a sanitized string-or-null value: the leading digit run
after leading spaces, NaN (`none`) when there is no digit (`parseInt(null)`
reads the string "null" and is NaN). -/
def jsParseInt (v : Option String) : Option Nat :=
  match v with
  | none => none
  | some s =>
    let ds := (s.data.dropWhile (· == ' ')).takeWhile Char.isDigit
    if ds.isEmpty then none else (String.mk ds).toNat?

/-- `parseInt(x) == k`: false when `parseInt` is NaN. -/
def jsEqNat (v : Option Nat) (k : Nat) : Bool :=
  match v with
  | none => false
  | some i => i == k

/-- `parseInt(x) >= k`: false when `parseInt` is NaN. -/
def jsGeNat (v : Option Nat) (k : Nat) : Bool :=
  match v with
  | none => false
  | some i => k ≤ i

/-- `parseInt(x) <= k`: false when `parseInt` is NaN. -/
def jsLeNat (v : Option Nat) (k : Nat) : Bool :=
  match v with
  | none => false
  | some i => i ≤ k

/-- The device_type branch of the validator:
`x != null && !(typeof x === 'string' || x instanceof String)`. -/
def invalidTypeBranch (v : Option String) : Bool :=
  jsNotNull v && !(jsIsStringVal v)

/-- The on_off / batteries_included / open_closed branch of the validator:
`x != null && !(typeof x === 'string' || x instanceof String) &&
(!isNaN(x) && parseInt(x) == 0 || parseInt(x) == 1)`. -/
def invalidFlagBranch (v : Option String) : Bool :=
  jsNotNull v && !(jsIsStringVal v) &&
    ((!(jsIsNaN v) && jsEqNat (jsParseInt v) 0) || jsEqNat (jsParseInt v) 1)

/-- The volume branch of the validator: `x != null && !(typeof x === 'string'
|| x instanceof String) && (!isNaN(x) && parseInt(x) >= 0 && parseInt(x) <= 100)`. -/
def invalidVolumeBranch (v : Option String) : Bool :=
  jsNotNull v && !(jsIsStringVal v) &&
    (!(jsIsNaN v) && jsGeNat (jsParseInt v) 0 && jsLeNat (jsParseInt v) 100)

/-- The temperature branch of the validator: `x != null && !(typeof x ===
'string' || x instanceof String) && (!isNaN(x) && parseInt(x) >= 1 &&
parseInt(x) <= 220)`. -/
def invalidTemperatureBranch (v : Option String) : Bool :=
  jsNotNull v && !(jsIsStringVal v) &&
    (!(jsIsNaN v) && jsGeNat (jsParseInt v) 1 && jsLeNat (jsParseInt v) 220)

/-- `isNaN(req.body.batteriesIncluded)` in the /update-result validator: the
route reads the camel-case field, which the urlencoded body never carries, and
`isNaN(undefined)` is true. -/
def isNaNUndefinedBatteriesIncluded : Bool := true

/-- The batteries_included branch of the /update-result validator, whose
`isNaN` call reads the undefined `req.body.batteriesIncluded`. -/
def invalidBatteriesBranchUpdate (v : Option String) : Bool :=
  jsNotNull v && !(jsIsStringVal v) &&
    ((!isNaNUndefinedBatteriesIncluded && jsEqNat (jsParseInt v) 0) ||
      jsEqNat (jsParseInt v) 1)

/-- The sanitized field values a route's validator and queries consume. -/
structure SanitizedFields where
  device_type : String
  custom_name : String
  on_off : Option String
  temperature : Option String
  volume : Option String
  batteries_included : Option String
  open_closed : Option String
deriving DecidableEq

/-- The `isValid` flag after the six type/range branches of /add-result (the
same six branches appear in /confirm-delete, /delete-result and
/retrieve-update-record). -/
def fieldsValid (b : SanitizedFields) : Bool :=
  !(invalidTypeBranch (some b.device_type)) &&
  !(invalidFlagBranch b.on_off) &&
  !(invalidFlagBranch b.batteries_included) &&
  !(invalidFlagBranch b.open_closed) &&
  !(invalidVolumeBranch b.volume) &&
  !(invalidTemperatureBranch b.temperature)

/-- The `isValid` flag of /update-result, whose batteries branch carries the
camel-case `batteriesIncluded` typo. -/
def fieldsValidUpdate (b : SanitizedFields) : Bool :=
  !(invalidTypeBranch (some b.device_type)) &&
  !(invalidFlagBranch b.on_off) &&
  !(invalidBatteriesBranchUpdate b.batteries_included) &&
  !(invalidFlagBranch b.open_closed) &&
  !(invalidVolumeBranch b.volume) &&
  !(invalidTemperatureBranch b.temperature)

/-- The raw /add-result request body: an urlencoded form posts every field,
so each is a present string (an empty input arrives as `""`).  The same shape
reaches the sanitizing block of /confirm-delete, /delete-result and
/retrieve-update-record after their field-parsing prelude. -/
structure AddRawBody where
  device_type : String
  custom_name : String
  on_off : String
  temperature : String
  volume : String
  batteries_included : String
  open_closed : String
deriving DecidableEq

/-- The raw /update-result request body: this route distinguishes absent
(`undefined`, here `none`) optional fields, and also carries the record id. -/
structure UpdateRawBody where
  device_type_ID : Option String
  device_type : String
  custom_name : String
  on_off : Option String
  temperature : Option String
  volume : Option String
  batteries_included : Option String
  open_closed : Option String
deriving DecidableEq

/-- The sanitizing block of /add-result: required fields are stripped; each
optional field is set to null when it `=== ""`, and stripped otherwise. -/
def sanitizeAddBody (b : AddRawBody) : SanitizedFields :=
  { device_type := stripSpecial b.device_type,
    custom_name := stripSpecial b.custom_name,
    on_off := if b.on_off = "" then none else some (stripSpecial b.on_off),
    temperature := if b.temperature = "" then none else some (stripSpecial b.temperature),
    volume := if b.volume = "" then none else some (stripSpecial b.volume),
    batteries_included := if b.batteries_included = "" then none else some (stripSpecial b.batteries_included),
    open_closed := if b.open_closed = "" then none else some (stripSpecial b.open_closed) }

/-- The sanitizing block of /confirm-delete (character for character the same
as /add-result's in the source). -/
def sanitizeConfirmBody (b : AddRawBody) : SanitizedFields :=
  { device_type := stripSpecial b.device_type,
    custom_name := stripSpecial b.custom_name,
    on_off := if b.on_off = "" then none else some (stripSpecial b.on_off),
    temperature := if b.temperature = "" then none else some (stripSpecial b.temperature),
    volume := if b.volume = "" then none else some (stripSpecial b.volume),
    batteries_included := if b.batteries_included = "" then none else some (stripSpecial b.batteries_included),
    open_closed := if b.open_closed = "" then none else some (stripSpecial b.open_closed) }

/-- The sanitizing block of /delete-result (character for character the same
as /add-result's in the source). -/
def sanitizeDeleteBody (b : AddRawBody) : SanitizedFields :=
  { device_type := stripSpecial b.device_type,
    custom_name := stripSpecial b.custom_name,
    on_off := if b.on_off = "" then none else some (stripSpecial b.on_off),
    temperature := if b.temperature = "" then none else some (stripSpecial b.temperature),
    volume := if b.volume = "" then none else some (stripSpecial b.volume),
    batteries_included := if b.batteries_included = "" then none else some (stripSpecial b.batteries_included),
    open_closed := if b.open_closed = "" then none else some (stripSpecial b.open_closed) }

/-- The sanitizing block of /retrieve-update-record (character for character
the same as /add-result's in the source). -/
def sanitizeRetrieveBody (b : AddRawBody) : SanitizedFields :=
  { device_type := stripSpecial b.device_type,
    custom_name := stripSpecial b.custom_name,
    on_off := if b.on_off = "" then none else some (stripSpecial b.on_off),
    temperature := if b.temperature = "" then none else some (stripSpecial b.temperature),
    volume := if b.volume = "" then none else some (stripSpecial b.volume),
    batteries_included := if b.batteries_included = "" then none else some (stripSpecial b.batteries_included),
    open_closed := if b.open_closed = "" then none else some (stripSpecial b.open_closed) }

/-- The sanitizing block of /update-result: each optional field is set to
null when it `=== undefined`, and stripped otherwise — unlike the other four
routes, a present empty string is stripped (to `""`), not nulled. -/
def sanitizeUpdateBody (b : UpdateRawBody) : SanitizedFields :=
  { device_type := stripSpecial b.device_type,
    custom_name := stripSpecial b.custom_name,
    on_off := match b.on_off with | none => none | some s => some (stripSpecial s),
    temperature := match b.temperature with | none => none | some s => some (stripSpecial s),
    volume := match b.volume with | none => none | some s => some (stripSpecial s),
    batteries_included := match b.batteries_included with | none => none | some s => some (stripSpecial s),
    open_closed := match b.open_closed with | none => none | some s => some (stripSpecial s) }

/-- An externally visible step a handler takes: a parameterized database
query, a response, or a view render / redirect. -/
inductive Action where
  | dbQuery (sql : String) (params : List (Option String))
  | respond400 (error : String)
  | respond500 (message : String)
  | render (view : String)
  | redirect (path : String)
deriving DecidableEq

/-- `s` starts with `p`, computed on the character lists. -/
def strStarts (p s : String) : Bool := p.data.isPrefixOf s.data

/-- An INSERT, UPDATE or DELETE query: a repository mutation. -/
def Action.isMutation : Action → Bool
  | .dbQuery sql _ => strStarts "INSERT" sql || strStarts "UPDATE" sql || strStarts "DELETE" sql
  | _ => false

def sqlInsertDeviceTypes : String :=
  "INSERT INTO devicetypes (Device_Type, On_Off, Temperature, Volume, Batteries_Included, Open_Closed) VALUES (?,?,?,?,?,?)"

def sqlSelectLastInsertId : String := "SELECT LAST_INSERT_ID()"

def sqlInsertDeviceNames : String :=
  "INSERT INTO devicenames (Custom_Name, Device_Type_ID) VALUES (?,?)"

def sqlUpdateDeviceNames : String :=
  "UPDATE devicenames SET Custom_Name = ? WHERE Device_Type_ID = ?"

def sqlUpdateDeviceTypes : String :=
  "UPDATE devicetypes SET Device_Type = ?, On_Off = ?, Temperature = ?, Volume = ?, Batteries_Included = ?, Open_Closed = ? WHERE Device_Type_ID = ?"

def sqlSelectAllJoined : String :=
  "SELECT * FROM devicenames LEFT JOIN devicetypes ON devicenames.Device_Type_ID = devicetypes.Device_Type_ID"

def sqlSelectDeviceRecord : String :=
  "SELECT * FROM devicetypes CROSS JOIN devicenames ON devicetypes.Device_Type_ID = devicenames.Device_Type_ID AND devicetypes.Device_Type_ID = ?"

def sqlDeleteDeviceTypes : String := "DELETE FROM devicetypes WHERE Device_Type_ID = ?"

def customNameLengthError : String := "Custom name does not fit schema or required length"

def invalidFieldsError : String :=
  "The data fields are invalid or the custom name does not fit the required schema."

/-- The /add-result handler's visible steps (on the path where every issued
query succeeds; `lastInsertId` is the id `LAST_INSERT_ID()` reports, used by
the dependent devicenames insert).  Both rejection branches `return` before
any query. -/
def addResultActions (b : AddRawBody) (lastInsertId : Nat) : List Action :=
  let sb := sanitizeAddBody b
  if customNameReject sb.custom_name then
    [Action.respond400 customNameLengthError]
  else if !(fieldsValid sb) then
    [Action.respond400 invalidFieldsError]
  else
    [Action.dbQuery sqlInsertDeviceTypes
        [some sb.device_type, sb.on_off, sb.temperature, sb.volume, sb.batteries_included, sb.open_closed],
      Action.dbQuery sqlSelectLastInsertId [],
      Action.dbQuery sqlInsertDeviceNames [some sb.custom_name, some (toString lastInsertId)]]

/-- The /delete-result handler's visible steps after its field-parsing
prelude (on the path where every issued query succeeds).  Both rejection
branches `return` before the DELETE. -/
def deleteResultActions (b : AddRawBody) (deviceTypeID : String) : List Action :=
  let sb := sanitizeDeleteBody b
  if customNameReject sb.custom_name then
    [Action.respond400 customNameLengthError]
  else if !(fieldsValid sb) then
    [Action.respond400 invalidFieldsError]
  else
    [Action.dbQuery sqlDeleteDeviceTypes [some deviceTypeID],
      Action.dbQuery sqlSelectAllJoined [],
      Action.render "confirmdeleteresult.ejs"]

/-- The /update-result handler's visible steps (on the path where every
issued query succeeds).  On custom-name failure the route sets
`res.statusCode = 500` and calls `res.send` WITHOUT returning, so execution
falls through to the field check and, when `isValid` stays true, to both
UPDATE queries. -/
def updateResultActions (b : UpdateRawBody) : List Action :=
  let sb := sanitizeUpdateBody b
  let rejection : List Action :=
    if customNameReject sb.custom_name then [Action.respond500 customNameLengthError] else []
  if !(fieldsValidUpdate sb) then
    rejection ++ [Action.respond400 invalidFieldsError]
  else
    rejection ++
      [Action.dbQuery sqlUpdateDeviceNames [some sb.custom_name, b.device_type_ID],
        Action.dbQuery sqlUpdateDeviceTypes
          [some sb.device_type, sb.on_off, sb.temperature, sb.volume, sb.batteries_included, sb.open_closed, b.device_type_ID],
        Action.dbQuery sqlSelectAllJoined [],
        Action.render "performupdateresult.ejs"]

/-- The raw body reaching the field-parsing prelude of /confirm-delete,
/delete-result and /retrieve-update-record: the posted form carries every
field as a string, and `device_type_ID` may itself be one comma-joined
serialization of all eight fields. -/
structure ConfirmRawBody where
  device_type_ID : String
  custom_name : String
  device_type : String
  on_off : String
  batteries_included : String
  open_closed : String
  volume : String
  temperature : String
deriving DecidableEq

/-- The body fields after the parsing prelude: an index past the end of the
comma split leaves a field `undefined`, modelled as `none`. -/
structure ParsedFields where
  device_type_ID : Option String
  custom_name : Option String
  device_type : Option String
  on_off : Option String
  batteries_included : Option String
  open_closed : Option String
  volume : Option String
  temperature : Option String
deriving DecidableEq

/-- `inputFields.includes(",")`, computed on the character list. -/
def containsComma (s : String) : Bool := s.data.contains ','

/-- `inputFields.split(",")` on the character list: the maximal comma-free
chunks, the empty chunk included at each boundary (so `"a,b"` gives
`["a", "b"]`, `","` gives `["", ""]` and `""` gives `[""]`). -/
def splitComma : List Char → List String
  | [] => [""]
  | c :: cs =>
    match splitComma cs, decide (c = ',') with
    | rest, true => "" :: rest
    | [], false => [String.mk [c]]
    | r :: rs, false => String.mk (c :: r.data) :: rs

/-- The field-parsing prelude of /confirm-delete: when `device_type_ID`
contains a comma it is split on commas and the components are assigned
positionally (`inputDeviceFields[0]` through `inputDeviceFields[7]`);
otherwise the discrete body fields are used as given. -/
def parseConfirmDeleteFields (b : ConfirmRawBody) : ParsedFields :=
  let inputFields := b.device_type_ID
  if containsComma inputFields then
    let inputDeviceFields := splitComma inputFields.data
    { device_type_ID := inputDeviceFields.get? 0,
      custom_name := inputDeviceFields.get? 1,
      device_type := inputDeviceFields.get? 2,
      on_off := inputDeviceFields.get? 3,
      batteries_included := inputDeviceFields.get? 4,
      open_closed := inputDeviceFields.get? 5,
      volume := inputDeviceFields.get? 6,
      temperature := inputDeviceFields.get? 7 }
  else
    { device_type_ID := some b.device_type_ID,
      custom_name := some b.custom_name,
      device_type := some b.device_type,
      on_off := some b.on_off,
      batteries_included := some b.batteries_included,
      open_closed := some b.open_closed,
      volume := some b.volume,
      temperature := some b.temperature }

/-- The field-parsing prelude of /delete-result (character for character the
same as /confirm-delete's in the source). -/
def parseDeleteResultFields (b : ConfirmRawBody) : ParsedFields :=
  let inputFields := b.device_type_ID
  if containsComma inputFields then
    let inputDeviceFields := splitComma inputFields.data
    { device_type_ID := inputDeviceFields.get? 0,
      custom_name := inputDeviceFields.get? 1,
      device_type := inputDeviceFields.get? 2,
      on_off := inputDeviceFields.get? 3,
      batteries_included := inputDeviceFields.get? 4,
      open_closed := inputDeviceFields.get? 5,
      volume := inputDeviceFields.get? 6,
      temperature := inputDeviceFields.get? 7 }
  else
    { device_type_ID := some b.device_type_ID,
      custom_name := some b.custom_name,
      device_type := some b.device_type,
      on_off := some b.on_off,
      batteries_included := some b.batteries_included,
      open_closed := some b.open_closed,
      volume := some b.volume,
      temperature := some b.temperature }

/-- A row of the devicetypes/devicenames join as /display-status reads it:
each optional column is an integer or NULL. -/
structure JoinedRow where
  On_Off : Option Int
  Temperature : Option Int
  Volume : Option Int
  Batteries_Included : Option Int
  Open_Closed : Option Int
deriving DecidableEq

/-- A JavaScript value a display state variable holds: the number 0 it is
initialized to, or the boolean the comparison `=== 1` assigns. -/
inductive JsDisplayVal where
  | num (n : Int)
  | bool (b : Bool)
deriving DecidableEq

/-- `valid_on_off = (result[0].On_Off !== null)` in /display-status. -/
def validOnOffFlag (r : JoinedRow) : Bool := r.On_Off.isSome

/-- `valid_temperature = (result[0].Temperature !== null)`. -/
def validTemperatureFlag (r : JoinedRow) : Bool := r.Temperature.isSome

/-- `valid_volume = (result[0].Volume !== null)`. -/
def validVolumeFlag (r : JoinedRow) : Bool := r.Volume.isSome

/-- `valid_batteries_included = (result[0].Batteries_Included !== null)`. -/
def validBatteriesIncludedFlag (r : JoinedRow) : Bool := r.Batteries_Included.isSome

/-- `valid_open_closed = (result[0].Open_Closed !== null)`. -/
def validOpenClosedFlag (r : JoinedRow) : Bool := r.Open_Closed.isSome

/-- `deviceOnState`: initialized to 0, reassigned to `On_Off === 1` when
`valid_on_off` holds. -/
def deviceOnState (r : JoinedRow) : JsDisplayVal :=
  if validOnOffFlag r then JsDisplayVal.bool (r.On_Off == some 1) else JsDisplayVal.num 0

/-- `deviceOpenState`: initialized to 0, reassigned to `Open_Closed === 1`
when `valid_open_closed` holds. -/
def deviceOpenState (r : JoinedRow) : JsDisplayVal :=
  if validOpenClosedFlag r then JsDisplayVal.bool (r.Open_Closed == some 1) else JsDisplayVal.num 0

/-- `deviceBatteriesState`: initialized to 0, reassigned to
`Batteries_Included === 1` when `valid_batteries_included` holds. -/
def deviceBatteriesState (r : JoinedRow) : JsDisplayVal :=
  if validBatteriesIncludedFlag r then JsDisplayVal.bool (r.Batteries_Included == some 1)
  else JsDisplayVal.num 0

/-- The /display-status handler's visible steps: the list-all join, the
single-record join keyed by `req.query.deviceTypeID`, and the render of the
derived state — the derived flags and states are computed in the callback and
only rendered, never stored. -/
def displayStatusActions (deviceTypeID : Option String) : List Action :=
  [Action.dbQuery sqlSelectAllJoined [],
    Action.dbQuery sqlSelectDeviceRecord [deviceTypeID],
    Action.render "devicestatus.ejs"]

/-- The /update-result body carrying the same field values as the fully
present form post `b` (every optional field posted, so present). -/
def toUpdateBody (b : AddRawBody) (idv : Option String) : UpdateRawBody :=
  { device_type_ID := idv,
    device_type := b.device_type,
    custom_name := b.custom_name,
    on_off := some b.on_off,
    temperature := some b.temperature,
    volume := some b.volume,
    batteries_included := some b.batteries_included,
    open_closed := some b.open_closed }

/-- The optional-field sanitization as one transformation on string-or-absent
values (spec section 4.1 and every present-field route word the same map):
empty or absent becomes null, a present value is stripped. -/
def sanitizeOptionalValue (v : Option String) : Option String :=
  match v with
  | none => none
  | some s => if s = "" then none else some (stripSpecial s)

/-- An /add-result request posting volume 150 for a Speaker named livingroom. -/
def volume150AddBody : AddRawBody :=
  { device_type := "Speaker", custom_name := "livingroom", on_off := "",
    temperature := "", volume := "150", batteries_included := "", open_closed := "" }

/-- An /update-result request setting the volume of record 1 to 150. -/
def volume150UpdateBody : UpdateRawBody :=
  { device_type_ID := some "1", device_type := "Speaker", custom_name := "livingroom",
    on_off := none, temperature := none, volume := some "150",
    batteries_included := none, open_closed := none }

/-- An /update-result request whose custom name "ab" fails the length check. -/
def shortNameUpdateBody : UpdateRawBody :=
  { device_type_ID := some "3", device_type := "Lamp", custom_name := "ab",
    on_off := none, temperature := none, volume := none,
    batteries_included := none, open_closed := none }

/-- An /add-result request whose custom name "ab" fails the length check. -/
def shortNameAddBody : AddRawBody :=
  { device_type := "Lamp", custom_name := "ab", on_off := "", temperature := "",
    volume := "", batteries_included := "", open_closed := "" }

/-- A raw request posting every field, the optional ones empty. -/
def emptyOptionalsAddBody : AddRawBody :=
  { device_type := "Lamp", custom_name := "floorlamp", on_off := "", temperature := "",
    volume := "", batteries_included := "", open_closed := "" }

/-- The same raw request as `emptyOptionalsAddBody`, as /update-result
receives it: every optional field posted (present) and empty. -/
def emptyOptionalsUpdateBody : UpdateRawBody :=
  { device_type_ID := some "2", device_type := "Lamp", custom_name := "floorlamp",
    on_off := some "", temperature := some "", volume := some "",
    batteries_included := some "", open_closed := some "" }

/-- A joined row whose On_Off is 1, whose Batteries_Included is 0 and whose
other optional columns are NULL. -/
def sampleJoinedRow : JoinedRow :=
  { On_Off := some 1, Temperature := none, Volume := none,
    Batteries_Included := some 0, Open_Closed := none }

/-- A raw request posting every field nonempty. -/
def fullAddBody : AddRawBody :=
  { device_type := "Heater", custom_name := "mainheater", on_off := "1",
    temperature := "70", volume := "5", batteries_included := "0", open_closed := "1" }

/-- A confirm/delete body whose `device_type_ID` is the comma-joined
serialization of all eight fields. -/
def commaJoinedBody : ConfirmRawBody :=
  { device_type_ID := "4,kitchenlamp,Lamp,1,0,1,50,100", custom_name := "",
    device_type := "", on_off := "", batteries_included := "", open_closed := "",
    volume := "", temperature := "" }

/-! ## Helper lemmas -/

theorem filter_self_idem (p : Char → Bool) (l : List Char) :
    (l.filter p).filter p = l.filter p := by
  induction l with
  | nil => rfl
  | cons c cs ih =>
    by_cases h : p c = true
    · simp [List.filter_cons, h, ih]
    · simp [List.filter_cons, h, ih]

theorem stripSpecial_idem (s : String) : stripSpecial (stripSpecial s) = stripSpecial s := by
  unfold stripSpecial
  exact congrArg String.mk (filter_self_idem allowedChar s.data)

theorem mem_stripSpecial_allowed {c : Char} {s : String}
    (h : c ∈ (stripSpecial s).data) : allowedChar c = true :=
  (List.mem_filter.mp h).2

theorem wordPlusStar_all {l : List Char} (h : WordPlusStar l) :
    ∀ c ∈ l, wordChar c = true := by
  induction h with
  | nil => intro c hc; cases hc
  | cons u v hu _ ih =>
    intro c hc
    rcases List.mem_append.mp hc with h1 | h2
    · exact hu.2 c h1
    · exact ih c h2

/-- The starred second group of the custom-name regex adds nothing: the regex
accepts exactly the nonempty all-word-character strings. -/
theorem customNameRegexAccepts_iff (s : String) :
    customNameRegexAccepts s ↔ validCustomNameRegexTest s = true := by
  unfold customNameRegexAccepts validCustomNameRegexTest
  constructor
  · rintro ⟨u, v, hs, ⟨hne, hword⟩, hstar⟩
    have hall : ∀ c ∈ s.data, wordChar c = true := by
      intro c hc
      rw [hs] at hc
      rcases List.mem_append.mp hc with h1 | h2
      · exact hword c h1
      · exact wordPlusStar_all hstar c h2
    have hnonnil : s.data ≠ [] := by
      rw [hs]
      intro hcontra
      exact hne (List.append_eq_nil.mp hcontra).1
    rw [Bool.and_eq_true, Bool.not_eq_true', List.all_eq_true]
    exact ⟨List.isEmpty_eq_false.mpr hnonnil, hall⟩
  · intro h
    rw [Bool.and_eq_true, Bool.not_eq_true', List.all_eq_true] at h
    refine ⟨s.data, [], by simp, ⟨?_, h.2⟩, WordPlusStar.nil⟩
    intro hcontra
    rw [hcontra] at h
    simp at h

theorem invalidTypeBranch_some (x : String) : invalidTypeBranch (some x) = false := by
  simp [invalidTypeBranch, jsNotNull, jsIsStringVal]

theorem invalidFlagBranch_false (v : Option String) : invalidFlagBranch v = false := by
  cases v <;> simp [invalidFlagBranch, jsNotNull, jsIsStringVal]

theorem invalidVolumeBranch_false (v : Option String) : invalidVolumeBranch v = false := by
  cases v <;> simp [invalidVolumeBranch, jsNotNull, jsIsStringVal]

theorem invalidTemperatureBranch_false (v : Option String) :
    invalidTemperatureBranch v = false := by
  cases v <;> simp [invalidTemperatureBranch, jsNotNull, jsIsStringVal]

theorem invalidBatteriesBranchUpdate_false (v : Option String) :
    invalidBatteriesBranchUpdate v = false := by
  cases v <;> simp [invalidBatteriesBranchUpdate, jsNotNull, jsIsStringVal]

/-- Every sanitized value is a string or null, so the `!(typeof x ===
'string')` conjunct short-circuits every branch: the field validator never
rejects. -/
theorem fieldsValid_always_true (sb : SanitizedFields) : fieldsValid sb = true := by
  simp [fieldsValid, invalidTypeBranch_some, invalidFlagBranch_false,
    invalidVolumeBranch_false, invalidTemperatureBranch_false]

theorem fieldsValidUpdate_always_true (sb : SanitizedFields) :
    fieldsValidUpdate sb = true := by
  simp [fieldsValidUpdate, invalidTypeBranch_some, invalidFlagBranch_false,
    invalidBatteriesBranchUpdate_false, invalidVolumeBranch_false,
    invalidTemperatureBranch_false]

/-! ## Claim theorems -/

/-- C1: contrary to the claim, the field validator does not reject a present
out-of-range value: on the sanitized request with volume "150" the `isValid`
flag stays true (the `!(typeof x === 'string')` conjunct is false for every
sanitized string, so no range branch can fire) and /add-result proceeds to
insert the record instead of responding 400. -/
theorem c1_add_result_accepts_volume_150 :
    fieldsValid (sanitizeAddBody volume150AddBody) = true ∧
    addResultActions volume150AddBody 1 =
      [Action.dbQuery sqlInsertDeviceTypes
          [some "Speaker", none, none, some "150", none, none],
        Action.dbQuery sqlSelectLastInsertId [],
        Action.dbQuery sqlInsertDeviceNames [some "livingroom", some "1"]] := by
  exact ⟨by decide, by decide⟩

/-- C2: contrary to the claim, /update-result with the invalid custom name
"ab" sends the 500 rejection and still issues both UPDATE queries: the
rejection branch does not return, so the mutation is attempted for the
rejected request. -/
theorem c2_update_result_mutates_after_rejection :
    updateResultActions shortNameUpdateBody =
      [Action.respond500 customNameLengthError,
        Action.dbQuery sqlUpdateDeviceNames [some "ab", some "3"],
        Action.dbQuery sqlUpdateDeviceTypes
          [some "Lamp", none, none, none, none, none, some "3"],
        Action.dbQuery sqlSelectAllJoined [],
        Action.render "performupdateresult.ejs"] ∧
    (updateResultActions shortNameUpdateBody).any Action.isMutation = true := by
  exact ⟨by decide, by decide⟩

/-- C3: the custom-name check rejects with the schema/length 400 exactly when
the name fails the regex — whose language is exactly `^[A-Za-z0-9_]+$` — or
has length outside [5,16]; the create request with custom name "ab" is
rejected and no query at all (in particular no INSERT) is issued. -/
theorem c3_custom_name_check :
    (∀ s : String, customNameRegexAccepts s ↔ validCustomNameRegexTest s = true) ∧
    (∀ s : String, customNameReject s = true ↔
      (¬ customNameRegexAccepts s ∨ s.length < 5 ∨ s.length > 16)) ∧
    (∀ n : Nat, addResultActions shortNameAddBody n = [Action.respond400 customNameLengthError] ∧
      (addResultActions shortNameAddBody n).any Action.isMutation = false) := by
  refine ⟨customNameRegexAccepts_iff, ?_, ?_⟩
  · intro s
    rw [customNameRegexAccepts_iff]
    unfold customNameReject
    rcases h : validCustomNameRegexTest s with _ | _ <;>
      simp [h, Nat.lt_iff_add_one_le, Nat.lt_iff_add_one_le]
  · intro n
    exact ⟨rfl, rfl⟩

/-- C3 witness: the regex equivalence and the rejection condition are not
vacuous — "lamp01" is accepted by the regex and "ab" is rejected for length. -/
theorem c3_custom_name_check_witness :
    customNameRegexAccepts "lamp01" ∧ customNameReject "ab" = true :=
  ⟨(c3_custom_name_check.1 "lamp01").mpr (by decide),
    (c3_custom_name_check.2.1 "ab").mpr (Or.inr (Or.inl (by decide)))⟩

/-- C4: contrary to the claim, an update setting volume to "150" is not
rejected: the update validator accepts the sanitized request and the handler
issues both UPDATE queries, writing Volume = 150 over the stored record. -/
theorem c4_update_result_applies_volume_150 :
    fieldsValidUpdate (sanitizeUpdateBody volume150UpdateBody) = true ∧
    updateResultActions volume150UpdateBody =
      [Action.dbQuery sqlUpdateDeviceNames [some "livingroom", some "1"],
        Action.dbQuery sqlUpdateDeviceTypes
          [some "Speaker", none, none, some "150", none, none, some "1"],
        Action.dbQuery sqlSelectAllJoined [],
        Action.render "performupdateresult.ejs"] := by
  exact ⟨by decide, by decide⟩

/-- C5 counterexample: on /update-result a posted empty-string optional field
is sanitized to the empty string, not to null — the claim's "empty string
becomes null on every route" fails on the update route. -/
theorem c5_update_empty_string_not_nulled :
    emptyOptionalsUpdateBody.volume = some "" ∧
    (sanitizeUpdateBody emptyOptionalsUpdateBody).volume = some "" ∧
    (sanitizeUpdateBody emptyOptionalsUpdateBody).volume ≠ none := by
  exact ⟨rfl, by decide, by decide⟩

/-- C5 amended: on /add-result, /confirm-delete, /delete-result and
/retrieve-update-record (whose handlers read every field as a present
string), required fields are stripped and never absent and a present optional
field becomes null exactly when it is the empty string, otherwise it is
stripped; on /update-result an optional field becomes null exactly when it is
absent, and any present value — including the empty string — is stripped. -/
theorem c5_sanitizer_contract :
    (∀ b : AddRawBody,
      sanitizeAddBody b =
        { device_type := stripSpecial b.device_type,
          custom_name := stripSpecial b.custom_name,
          on_off := sanitizeOptionalValue (some b.on_off),
          temperature := sanitizeOptionalValue (some b.temperature),
          volume := sanitizeOptionalValue (some b.volume),
          batteries_included := sanitizeOptionalValue (some b.batteries_included),
          open_closed := sanitizeOptionalValue (some b.open_closed) } ∧
      sanitizeConfirmBody b = sanitizeAddBody b ∧
      sanitizeDeleteBody b = sanitizeAddBody b ∧
      sanitizeRetrieveBody b = sanitizeAddBody b) ∧
    (∀ b : UpdateRawBody,
      sanitizeUpdateBody b =
        { device_type := stripSpecial b.device_type,
          custom_name := stripSpecial b.custom_name,
          on_off := Option.map stripSpecial b.on_off,
          temperature := Option.map stripSpecial b.temperature,
          volume := Option.map stripSpecial b.volume,
          batteries_included := Option.map stripSpecial b.batteries_included,
          open_closed := Option.map stripSpecial b.open_closed }) := by
  constructor
  · intro b
    refine ⟨rfl, rfl, rfl, rfl⟩
  · intro b
    unfold sanitizeUpdateBody
    cases b.on_off <;> cases b.temperature <;> cases b.volume <;>
      cases b.batteries_included <;> cases b.open_closed <;> rfl

/-- C6 counterexample: the same raw request — every field posted, the
optional ones empty — sanitizes its on_off to null on /add-result but to the
empty string on /update-result: the pipeline is not one function across the
routes. -/
theorem c6_pipelines_differ :
    emptyOptionalsAddBody.on_off = "" ∧
    emptyOptionalsUpdateBody.on_off = some "" ∧
    (sanitizeAddBody emptyOptionalsAddBody).on_off = none ∧
    (sanitizeUpdateBody emptyOptionalsUpdateBody).on_off = some "" ∧
    (sanitizeAddBody emptyOptionalsAddBody).on_off ≠
      (sanitizeUpdateBody emptyOptionalsUpdateBody).on_off := by
  exact ⟨rfl, rfl, by decide, by decide, by decide⟩

/-- C6 amended: the create, confirm-delete, delete and retrieve-update
pipelines are identical functions; the update pipeline shares the validation
predicates and agrees on every raw input whose posted optional fields are all
nonempty, but nulls only absent (not empty-string) optional fields, and on
custom-name failure the create handler halts with 400 where the update
handler responds 500 and still reaches its mutations. -/
theorem c6_pipeline_agreement :
    (∀ b : AddRawBody,
      sanitizeConfirmBody b = sanitizeAddBody b ∧
      sanitizeDeleteBody b = sanitizeAddBody b ∧
      sanitizeRetrieveBody b = sanitizeAddBody b) ∧
    (∀ sb : SanitizedFields, fieldsValidUpdate sb = fieldsValid sb) ∧
    (∀ b : AddRawBody, ∀ idv : Option String,
      b.on_off ≠ "" → b.temperature ≠ "" → b.volume ≠ "" →
      b.batteries_included ≠ "" → b.open_closed ≠ "" →
      sanitizeUpdateBody (toUpdateBody b idv) = sanitizeAddBody b) ∧
    (∀ b : AddRawBody, ∀ n : Nat,
      customNameReject (sanitizeAddBody b).custom_name = true →
      addResultActions b n = [Action.respond400 customNameLengthError]) ∧
    (∀ b : UpdateRawBody,
      customNameReject (sanitizeUpdateBody b).custom_name = true →
      (updateResultActions b).head? = some (Action.respond500 customNameLengthError) ∧
      (updateResultActions b).any Action.isMutation = true) := by
  refine ⟨fun b => ⟨rfl, rfl, rfl⟩, ?_, ?_, ?_, ?_⟩
  · intro sb
    rw [fieldsValidUpdate_always_true, fieldsValid_always_true]
  · intro b idv h1 h2 h3 h4 h5
    unfold sanitizeUpdateBody sanitizeAddBody toUpdateBody
    simp only
    rw [if_neg h1, if_neg h2, if_neg h3, if_neg h4, if_neg h5]
  · intro b n h
    unfold addResultActions
    simp only [h, if_true]
  · intro b h
    unfold updateResultActions
    simp only [h, fieldsValidUpdate_always_true, Bool.not_true, Bool.false_eq_true,
      if_false, if_true]
    exact ⟨rfl, rfl⟩

/-- C6 witness: the cross-route agreement and the verdict clauses are not
vacuous — a concrete all-present nonempty request sanitizes identically on
the update route, and a concrete short-name request exercises both verdict
clauses. -/
theorem c6_pipeline_agreement_witness :
    sanitizeUpdateBody (toUpdateBody fullAddBody (some "1")) =
      sanitizeAddBody fullAddBody ∧
    addResultActions shortNameAddBody 1 = [Action.respond400 customNameLengthError] ∧
    (updateResultActions shortNameUpdateBody).any Action.isMutation = true :=
  ⟨c6_pipeline_agreement.2.2.1 fullAddBody (some "1") (by decide) (by decide)
      (by decide) (by decide) (by decide),
    c6_pipeline_agreement.2.2.2.1 shortNameAddBody 1 (by decide),
    (c6_pipeline_agreement.2.2.2.2 shortNameUpdateBody (by decide)).2⟩

/-- C7 counterexample: the optional-field sanitization is not idempotent —
the present value "@" sanitizes to the (present) empty string, which a second
application turns into null. -/
theorem c7_sanitizer_not_idempotent :
    sanitizeOptionalValue (some "@") = some "" ∧
    sanitizeOptionalValue (sanitizeOptionalValue (some "@")) = none ∧
    sanitizeOptionalValue (sanitizeOptionalValue (some "@")) ≠
      sanitizeOptionalValue (some "@") := by
  exact ⟨by decide, by decide, by decide⟩

/-- C7 amended: the required-field transformation (character stripping) is
idempotent, and the optional-field transformation is idempotent on a value
exactly when the value is not a nonempty string whose stripped form is empty. -/
theorem c7_sanitize_idempotent_iff :
    (∀ s : String, stripSpecial (stripSpecial s) = stripSpecial s) ∧
    (∀ v : Option String,
      sanitizeOptionalValue (sanitizeOptionalValue v) = sanitizeOptionalValue v ↔
        ¬ ∃ s, v = some s ∧ s ≠ "" ∧ stripSpecial s = "") := by
  refine ⟨stripSpecial_idem, ?_⟩
  intro v
  cases v with
  | none =>
    simp [sanitizeOptionalValue]
  | some s =>
    by_cases hs : s = ""
    · subst hs
      simp [sanitizeOptionalValue]
    · by_cases hst : stripSpecial s = ""
      · constructor
        · intro hcontra
          rw [show sanitizeOptionalValue (some s) = some "" by
                simp [sanitizeOptionalValue, hs, hst]] at hcontra
          simp [sanitizeOptionalValue] at hcontra
        · intro hcontra
          exact absurd ⟨s, rfl, hs, hst⟩ hcontra
      · constructor
        · intro _
          rintro ⟨t, ht, _, htst⟩
          rw [Option.some_inj] at ht
          subst ht
          exact hst htst
        · intro _
          rw [show sanitizeOptionalValue (some s) = some (stripSpecial s) by
                simp [sanitizeOptionalValue, hs]]
          simp [sanitizeOptionalValue, hst, stripSpecial_idem]

/-- C8: in /display-status each derived flag is true exactly when the stored
column is non-null; each display state is the boolean "stored value equals 1"
when its flag is true and the number 0 when it is false; and the handler
issues no INSERT, UPDATE or DELETE — the derived state is computed per read
and never written back. -/
theorem c8_display_status_derived_state (r : JoinedRow) :
    (validOnOffFlag r = true ↔ r.On_Off ≠ none) ∧
    (validTemperatureFlag r = true ↔ r.Temperature ≠ none) ∧
    (validVolumeFlag r = true ↔ r.Volume ≠ none) ∧
    (validBatteriesIncludedFlag r = true ↔ r.Batteries_Included ≠ none) ∧
    (validOpenClosedFlag r = true ↔ r.Open_Closed ≠ none) ∧
    (validOnOffFlag r = true →
      deviceOnState r = JsDisplayVal.bool (r.On_Off == some 1)) ∧
    (validOnOffFlag r = false → deviceOnState r = JsDisplayVal.num 0) ∧
    (validOpenClosedFlag r = true →
      deviceOpenState r = JsDisplayVal.bool (r.Open_Closed == some 1)) ∧
    (validOpenClosedFlag r = false → deviceOpenState r = JsDisplayVal.num 0) ∧
    (validBatteriesIncludedFlag r = true →
      deviceBatteriesState r = JsDisplayVal.bool (r.Batteries_Included == some 1)) ∧
    (validBatteriesIncludedFlag r = false → deviceBatteriesState r = JsDisplayVal.num 0) ∧
    (∀ idv : Option String, (displayStatusActions idv).any Action.isMutation = false) := by
  refine ⟨?_, ?_, ?_, ?_, ?_, ?_, ?_, ?_, ?_, ?_, ?_, fun idv => rfl⟩
  · simp [validOnOffFlag, Option.isSome_iff_ne_none]
  · simp [validTemperatureFlag, Option.isSome_iff_ne_none]
  · simp [validVolumeFlag, Option.isSome_iff_ne_none]
  · simp [validBatteriesIncludedFlag, Option.isSome_iff_ne_none]
  · simp [validOpenClosedFlag, Option.isSome_iff_ne_none]
  · intro h; simp [deviceOnState, h]
  · intro h; simp [deviceOnState, h]
  · intro h; simp [deviceOpenState, h]
  · intro h; simp [deviceOpenState, h]
  · intro h; simp [deviceBatteriesState, h]
  · intro h; simp [deviceBatteriesState, h]

/-- C8 witness: the flag and state clauses at a concrete row whose On_Off is
1 and whose Volume is null. -/
theorem c8_display_status_witness :
    validOnOffFlag sampleJoinedRow = true ∧
    deviceOnState sampleJoinedRow = JsDisplayVal.bool true ∧
    deviceOpenState sampleJoinedRow = JsDisplayVal.num 0 := by
  have h := c8_display_status_derived_state sampleJoinedRow
  exact ⟨by decide, by
      have h6 := h.2.2.2.2.2.1 (by decide)
      simpa using h6,
    h.2.2.2.2.2.2.2.2.1 (by decide)⟩

/-- C9: when the `device_type_ID` body field of /confirm-delete or
/delete-result contains a comma, it is split on commas and components 0..7
are assigned, in exactly this order, to device_type_ID, custom_name,
device_type, on_off, batteries_included, open_closed, volume, temperature;
otherwise the discrete body fields are used as given — and the two routes
parse identically. -/
theorem c9_comma_split_positional (b : ConfirmRawBody) :
    (containsComma b.device_type_ID = true →
      parseConfirmDeleteFields b =
        { device_type_ID := (splitComma b.device_type_ID.data).get? 0,
          custom_name := (splitComma b.device_type_ID.data).get? 1,
          device_type := (splitComma b.device_type_ID.data).get? 2,
          on_off := (splitComma b.device_type_ID.data).get? 3,
          batteries_included := (splitComma b.device_type_ID.data).get? 4,
          open_closed := (splitComma b.device_type_ID.data).get? 5,
          volume := (splitComma b.device_type_ID.data).get? 6,
          temperature := (splitComma b.device_type_ID.data).get? 7 }) ∧
    (containsComma b.device_type_ID = false →
      parseConfirmDeleteFields b =
        { device_type_ID := some b.device_type_ID,
          custom_name := some b.custom_name,
          device_type := some b.device_type,
          on_off := some b.on_off,
          batteries_included := some b.batteries_included,
          open_closed := some b.open_closed,
          volume := some b.volume,
          temperature := some b.temperature }) ∧
    parseDeleteResultFields b = parseConfirmDeleteFields b := by
  refine ⟨?_, ?_, rfl⟩
  · intro h
    unfold parseConfirmDeleteFields
    simp only [h, if_true]
  · intro h
    unfold parseConfirmDeleteFields
    simp only [h, Bool.false_eq_true, if_false]

/-- C9 witness: the positional assignment at a concrete comma-joined body. -/
theorem c9_comma_split_witness :
    parseConfirmDeleteFields commaJoinedBody =
      { device_type_ID := some "4", custom_name := some "kitchenlamp",
        device_type := some "Lamp", on_off := some "1",
        batteries_included := some "0", open_closed := some "1",
        volume := some "50", temperature := some "100" } := by
  have h := (c9_comma_split_positional commaJoinedBody).1 (by decide)
  rw [h]
  decide

/-- C10: a custom name that passes the create pipeline (sanitize, then the
schema/length check) consists only of ASCII letters and digits and has length
in [5,16]: the sanitizer removes underscores before the regex test and the
regex rejects spaces, so the stored name never contains an underscore or a
space. -/
theorem c10_stored_custom_name_alphanumeric (raw : String)
    (h : customNameReject (stripSpecial raw) = false) :
    (∀ c ∈ (stripSpecial raw).data, (c.isAlpha || c.isDigit) = true) ∧
    '_' ∉ (stripSpecial raw).data ∧
    ' ' ∉ (stripSpecial raw).data ∧
    5 ≤ (stripSpecial raw).length ∧ (stripSpecial raw).length ≤ 16 := by
  unfold customNameReject at h
  rw [Bool.or_eq_false_iff, Bool.or_eq_false_iff] at h
  obtain ⟨⟨htest, hlt⟩, hgt⟩ := h
  replace htest : validCustomNameRegexTest (stripSpecial raw) = true := by
    simpa using htest
  rw [validCustomNameRegexTest, Bool.and_eq_true, List.all_eq_true] at htest
  obtain ⟨-, hword⟩ := htest
  have halpha : ∀ c ∈ (stripSpecial raw).data, (c.isAlpha || c.isDigit) = true := by
    intro c hc
    have hA : allowedChar c = true := mem_stripSpecial_allowed hc
    have hW : wordChar c = true := hword c hc
    rw [allowedChar, Bool.or_eq_true, Bool.or_eq_true] at hA
    rcases hA with (hA | hA) | hA
    · simp [hA]
    · simp [hA]
    · rw [beq_iff_eq] at hA
      subst hA
      simp [wordChar] at hW
  refine ⟨halpha, ?_, ?_, ?_, ?_⟩
  · intro hm
    have := mem_stripSpecial_allowed hm
    simp [allowedChar] at this
  · intro hm
    have := hword ' ' hm
    simp [wordChar] at this
  · have := of_decide_eq_false hlt
    omega
  · have := of_decide_eq_false hgt
    omega

/-- C10 witness: the raw input "lamp_01" passes the pipeline after its
underscore is stripped, and the stored name "lamp01" is alphanumeric with
length 6. -/
theorem c10_stored_custom_name_witness :
    (∀ c ∈ (stripSpecial "lamp_01").data, (c.isAlpha || c.isDigit) = true) ∧
    '_' ∉ (stripSpecial "lamp_01").data ∧
    ' ' ∉ (stripSpecial "lamp_01").data ∧
    5 ≤ (stripSpecial "lamp_01").length ∧ (stripSpecial "lamp_01").length ≤ 16 :=
  c10_stored_custom_name_alphanumeric "lamp_01" (by decide)

end SmartDevice
